import Mathlib

/-!
Verification development for the NodeFz scheduler facade
(src/deps/uv/src/scheduler.c).

The facade is a process-wide singleton: a context struct holding the policy
kind, the mode, a 1024-byte schedule-file path buffer, an opaque config
pointer, an executed-callback counter, a thread-role registry, a reentrant
mutex, and the active policy's dispatch table.  Each public operation
asserts scheduler__looks_valid() and forwards to the active policy.

The embedding below translates scheduler.c statement by statement.  The
header scheduler.h and the keyed-map utility map.h are not part of the
sources, so the enumerations and the map operations are modelled from the
spec where noted.  A fatal assertion failure is modelled as `none`.
-/

namespace NodeFz

/-- Modelled from the spec: scheduler.h (not in src) declares the policy-kind
enumeration with the three variants named in the spec, with the usual
contiguous values starting at 0 (CBTREE = 0, FUZZER_TIMER = 1,
FUZZER_THREAD_ORDER = 2). -/
inductive scheduler_type_t where
  | CBTREE
  | FUZZER_TIMER
  | FUZZER_THREAD_ORDER
deriving DecidableEq, Repr

/-- Modelled from the spec: scheduler.h (not in src) declares the two modes,
RECORD = 0 and REPLAY = 1. -/
inductive scheduler_mode_t where
  | RECORD
  | REPLAY
deriving DecidableEq, Repr

/-- Modelled from the spec: scheduler.h (not in src) declares the two thread
roles, LOOPER = 0 and THREADPOOL = 1. -/
inductive thread_type_t where
  | LOOPER
  | THREADPOOL
deriving DecidableEq, Repr

/-- Modelled from the spec: scheduler.h (not in src) declares the six
schedule points, with contiguous values starting at 0. -/
inductive schedule_point_t where
  | BEFORE_EXEC_CB
  | AFTER_EXEC_CB
  | TP_BEFORE_GET_WORK
  | TP_AFTER_GET_WORK
  | TP_BEFORE_PUT_DONE
  | TP_AFTER_PUT_DONE
deriving DecidableEq, Repr

/-- Numeric value of a policy kind (its C enum value). -/
def scheduler_type_t.val : scheduler_type_t → Nat
  | .CBTREE => 0
  | .FUZZER_TIMER => 1
  | .FUZZER_THREAD_ORDER => 2

/-- Numeric value of a mode (its C enum value). -/
def scheduler_mode_t.val : scheduler_mode_t → Nat
  | .RECORD => 0
  | .REPLAY => 1

/-- Numeric value of a thread role (its C enum value). -/
def thread_type_t.val : thread_type_t → Nat
  | .LOOPER => 0
  | .THREADPOOL => 1

/-- Numeric value of a schedule point (its C enum value). -/
def schedule_point_t.val : schedule_point_t → Nat
  | .BEFORE_EXEC_CB => 0
  | .AFTER_EXEC_CB => 1
  | .TP_BEFORE_GET_WORK => 2
  | .TP_AFTER_GET_WORK => 3
  | .TP_BEFORE_PUT_DONE => 4
  | .TP_AFTER_PUT_DONE => 5

/-- Modelled from the spec: SCHEDULER_MODE_MIN from scheduler.h (not in src),
the smallest mode value. -/
def SCHEDULER_MODE_MIN : Nat := 0

/-- Modelled from the spec: SCHEDULER_MODE_MAX from scheduler.h (not in src),
one past the largest mode value (the code checks `x < SCHEDULER_MODE_MAX`
with a strict bound, so MAX is one-past-the-end; both modes pass their own
bounds check this way). -/
def SCHEDULER_MODE_MAX : Nat := 2

/-- scheduler.c line 24: `scheduler_type_strings`, an array declared with
size SCHEDULER_MODE_MAX - SCHEDULER_MODE_MIN + 1 and three initializers. -/
def scheduler_type_strings : List String :=
  ["CBTREE", "FUZZER_TIMER", "FUZZER_THREAD_ORDER"]

/-- scheduler.c lines 31-37: bounds-assert (against the MODE bounds, as
written in the source) then index the table. A failed assert is `none`. -/
def scheduler_type_to_string (type : scheduler_type_t) : Option String :=
  if SCHEDULER_MODE_MIN ≤ type.val ∧ type.val < SCHEDULER_MODE_MAX then
    scheduler_type_strings.get? (type.val - SCHEDULER_MODE_MIN)
  else none

/-- scheduler.c line 39: `scheduler_mode_strings` (two initializers, declared
size 3; the trailing element is a null pointer, modelled by get? running off
the list). -/
def scheduler_mode_strings : List String := ["RECORD", "REPLAY"]

/-- scheduler.c lines 45-51. -/
def scheduler_mode_to_string (mode : scheduler_mode_t) : Option String :=
  if SCHEDULER_MODE_MIN ≤ mode.val ∧ mode.val < SCHEDULER_MODE_MAX then
    scheduler_mode_strings.get? (mode.val - SCHEDULER_MODE_MIN)
  else none

/-- scheduler.c line 53: `thread_type_strings` (two initializers, declared
size 3). -/
def thread_type_strings : List String := ["LOOPER", "THREADPOOL"]

/-- scheduler.c lines 59-65. -/
def thread_type_to_string (type : thread_type_t) : Option String :=
  if SCHEDULER_MODE_MIN ≤ type.val ∧ type.val < SCHEDULER_MODE_MAX then
    thread_type_strings.get? (type.val - SCHEDULER_MODE_MIN)
  else none

/-- scheduler.c line 67: `schedule_point_strings`. The source declares the
array with size SCHEDULER_MODE_MAX - SCHEDULER_MODE_MIN + 1 = 3 yet lists six
initializers; we keep all six strings so the lookup itself is total and the
bounds assert alone decides which points are reachable. -/
def schedule_point_strings : List String :=
  ["BEFORE_EXEC_CB", "AFTER_EXEC_CB",
   "TP_BEFORE_GET_WORK", "TP_AFTER_GET_WORK",
   "TP_BEFORE_PUT_DONE", "TP_AFTER_PUT_DONE"]

/-- scheduler.c lines 79-85. The body names `type`, an identifier that does
not exist there; the only possible referent is the parameter `point`, so the
embedding reads it that way. The bounds assert is against the MODE bounds,
exactly as written in the source. -/
def schedule_point_to_string (point : schedule_point_t) : Option String :=
  if SCHEDULER_MODE_MIN ≤ point.val ∧ point.val < SCHEDULER_MODE_MAX then
    schedule_point_strings.get? (point.val - SCHEDULER_MODE_MIN)
  else none

/-! ## The keyed map (thread-role registry backing store) -/

/-- Modelled from the spec: the generic keyed-map utility (map.h / map.c, not
in src). The spec's contract (4.3): `register(threadId, role)` inserts;
`lookup(threadId)` returns the role or reports absence. Modelled as an
association list with most-recent-binding-first lookup. -/
def map_insert (m : List (Nat × thread_type_t)) (key : Nat)
    (value : thread_type_t) : List (Nat × thread_type_t) :=
  (key, value) :: m

/-- Modelled from the spec: map_lookup from map.h (not in src); returns the
value and sets `found`, modelled as an Option. -/
def map_lookup (m : List (Nat × thread_type_t)) (key : Nat) :
    Option thread_type_t :=
  (m.find? (fun kv => kv.1 == key)).map (fun kv => kv.2)

/-! ## The scheduler context -/

/-- scheduler.c line 89: `static int SCHEDULER_MAGIC = 8675309;`. -/
def SCHEDULER_MAGIC : Int := 8675309

/-- Which policy-specific constructor ran during scheduler_init (the source
stores the resulting dispatch table in scheduler.impl / scheduler.implDetails;
the policies are opaque, so the embedding records only which constructor
filled them). -/
inductive PolicyCtor where
  | cbTreeInit
  | fuzzerTimerInit
  | fuzzerThreadOrderInit
deriving DecidableEq, Repr

/-- scheduler.c lines 91-112: the global flag `scheduler_initialized` and the
singleton `scheduler` struct. `schedule_file` is a char[1024] buffer, held
here as the full list of 1024 bytes. `args` and `implDetails` are opaque
pointers, held as a Nat. `impl` records which policy constructor filled the
dispatch table (`none` before scheduler_init runs). The mutex is modelled by
its lock depth (a reentrant mutex counting same-thread acquisitions). -/
structure SchedulerState where
  scheduler_initialized : Bool
  magic : Int
  type : scheduler_type_t
  mode : scheduler_mode_t
  schedule_file : List Char
  args : Nat
  n_executed : Int
  tidToType : List (Nat × thread_type_t)
  mutex_depth : Nat
  impl : Option PolicyCtor
deriving DecidableEq, Repr

/-- The process-start value of the globals: C zero-initializes statics, so the
flag is 0, the magic is 0, enum fields are value 0, the path buffer is 1024
NUL bytes, pointers are null. -/
def initialState : SchedulerState :=
  { scheduler_initialized := false
    magic := 0
    type := .CBTREE
    mode := .RECORD
    schedule_file := List.replicate 1024 (Char.ofNat 0)
    args := 0
    n_executed := 0
    tidToType := []
    mutex_depth := 0
    impl := none }

/-- scheduler.c lines 267-271: `scheduler_initialized && scheduler.magic ==
SCHEDULER_MAGIC`. -/
def scheduler__looks_valid (s : SchedulerState) : Bool :=
  s.scheduler_initialized && s.magic == SCHEDULER_MAGIC

/-- C strncpy(dst, src, n) where dst is an n-byte buffer: copies at most n
bytes of src and NUL-pads only when src is shorter than n; when
src.length ≥ n no terminating NUL is stored. `src` is the C string's
content (it contains no NUL itself). -/
def strncpy (src : List Char) (n : Nat) : List Char :=
  src.take n ++ List.replicate (n - src.length) (Char.ofNat 0)

/-- The content a C string read of a buffer sees: the bytes up to the first
NUL. -/
def cstr (buf : List Char) : List Char :=
  buf.takeWhile (fun c => c ≠ Char.ofNat 0)

/-- scheduler.c lines 142-161, the `switch (scheduler.type)` of
scheduler_init, with all three ENABLE_SCHEDULER_* implementations compiled
in. In the source only `case SCHEDULER_TYPE_CBTREE:` carries the `case`
keyword; `SCHEDULER_TYPE_FUZZER_TIMER:` (line 149) and
`SCHEDULER_TYPE_FUZZER_THREAD_ORDER:` (line 154) are plain goto labels, so
switch dispatch on those two values matches no case and falls to `default:
assert(!"How did we get here?")`. `none` is that fatal default. -/
def scheduler_init_dispatch : scheduler_type_t → Option PolicyCtor
  | .CBTREE => some .cbTreeInit
  | .FUZZER_TIMER => none
  | .FUZZER_THREAD_ORDER => none

/-- scheduler.c lines 124-164. `assert(!initialized)` names the global flag
`scheduler_initialized` (the only initialization flag the file declares);
the assert fails (`none`) when the flag is already set. The body then fills
the shared fields — strncpy of the path into the 1024-byte buffer, counter
zeroed, fresh registry map, mutex initialized unlocked — and dispatches on
the type; note that no statement of the body ever stores 1 into
`scheduler_initialized`. -/
def scheduler_init (type : scheduler_type_t) (mode : scheduler_mode_t)
    (schedule_file : List Char) (args : Nat) (s : SchedulerState) :
    Option SchedulerState :=
  if s.scheduler_initialized then none
  else
    match scheduler_init_dispatch type with
    | none => none
    | some ctor =>
        some { s with
                magic := SCHEDULER_MAGIC
                type := type
                mode := mode
                schedule_file := strncpy schedule_file 1024
                args := args
                n_executed := 0
                tidToType := []
                mutex_depth := 0
                impl := some ctor }

/-! ## Public facade operations

Each returns `none` exactly when the body's assert fires (the fatal path),
and otherwise the state after the body (plus the produced value where the C
function returns one). The policies behind scheduler.impl are opaque: a
forwarded call leaves the context unchanged and its returned value is not
modelled. -/

/-- scheduler.c lines 166-171: assert(scheduler__looks_valid()); then
map_insert(scheduler.tidToType, (int) uv_thread_self(), (void *) type).
`tid` stands for the calling thread's uv_thread_self(). -/
def scheduler_register_thread (tid : Nat) (type : thread_type_t)
    (s : SchedulerState) : Option SchedulerState :=
  if scheduler__looks_valid s then
    some { s with tidToType := map_insert s.tidToType tid type }
  else none

/-- scheduler.c lines 173-178: assert valid, then forward the lcbn to
scheduler.impl.register_lcbn (opaque; the context is untouched). -/
def scheduler_register_lcbn (s : SchedulerState) : Option SchedulerState :=
  if scheduler__looks_valid s then some s else none

/-- scheduler.c lines 180-187: assert valid, then return
scheduler.impl.next_lcbn_type(...) (an opaque policy answer). -/
def scheduler_next_lcbn_type (s : SchedulerState) : Option SchedulerState :=
  if scheduler__looks_valid s then some s else none

/-- scheduler.c lines 189-194: assert valid, then forward to
scheduler.impl.thread_yield(point, pointDetails, ...). -/
def scheduler_thread_yield (point : schedule_point_t) (s : SchedulerState) :
    Option SchedulerState :=
  if scheduler__looks_valid s then some s else none

/-- scheduler.c lines 196-206, the path computation of scheduler_emit: a
local char output_file[1024] receives strcpy(output_file,
scheduler.schedule_file) — the stored buffer's content up to its first NUL —
then strcat(output_file, "-replay") exactly when scheduler.mode ==
SCHEDULER_MODE_REPLAY. -/
def scheduler_emit_output_file (s : SchedulerState) : List Char :=
  let output_file := cstr s.schedule_file
  if s.mode = .REPLAY then output_file ++ ("-replay".data) else output_file

/-- scheduler.c lines 196-206: assert valid; build output_file; call
scheduler.impl.emit(output_file, ...); return output_file. The produced
List Char is the single output_file buffer, i.e. both the argument handed to
the policy's emit routine and the function's return value. -/
def scheduler_emit (s : SchedulerState) : Option (List Char × SchedulerState) :=
  if scheduler__looks_valid s then
    some (scheduler_emit_output_file s, s)
  else none

/-- scheduler.c lines 208-215: assert valid, then return
scheduler.impl.lcbns_remaining(...) (opaque). -/
def scheduler_lcbns_remaining (s : SchedulerState) : Option SchedulerState :=
  if scheduler__looks_valid s then some s else none

/-- scheduler.c lines 217-223: assert valid, then return
scheduler.impl.has_diverged(...) (opaque). -/
def scheduler_schedule_has_diverged (s : SchedulerState) :
    Option SchedulerState :=
  if scheduler__looks_valid s then some s else none

/-- scheduler.c lines 225-230: assert valid, then return
scheduler.n_executed (read without the lock). -/
def scheduler_n_executed (s : SchedulerState) : Option (Int × SchedulerState) :=
  if scheduler__looks_valid s then some (s.n_executed, s) else none

/-- scheduler.c lines 232-236: assert valid, then return scheduler.mode. -/
def scheduler_get_scheduler_mode (s : SchedulerState) :
    Option (scheduler_mode_t × SchedulerState) :=
  if scheduler__looks_valid s then some (s.mode, s) else none

/-- scheduler.c lines 252-261: map_lookup(scheduler.tidToType, (int) tid,
&found); assert(found). `none` is the fatal assert on an absent thread; on
success the looked-up role is returned, never a default. -/
def scheduler__get_thread_type (tid : Nat) (s : SchedulerState) :
    Option thread_type_t :=
  map_lookup s.tidToType tid

/-! ## Statement traces of the facade bodies

For the synchronization discipline, each public mutating operation's body is
also transliterated as the ordered list of scheduler-level actions it
performs (its assert, any reentrant_mutex acquisition or release via
scheduler__lock / scheduler__unlock, the forward-to-policy call, the registry
insert, the counter read). These lists are read directly off scheduler.c
lines 166-230. -/

inductive FacadeEvent where
  | assertLooksValid
  | lockAcquire
  | lockRelease
  | forwardToPolicy
  | registryInsert
  | counterRead
deriving DecidableEq, Repr

/-- scheduler.c lines 166-171: the statements of scheduler_register_thread. -/
def scheduler_register_thread_events : List FacadeEvent :=
  [.assertLooksValid, .registryInsert]

/-- scheduler.c lines 173-178: the statements of scheduler_register_lcbn. -/
def scheduler_register_lcbn_events : List FacadeEvent :=
  [.assertLooksValid, .forwardToPolicy]

/-- scheduler.c lines 189-194: the statements of scheduler_thread_yield. -/
def scheduler_thread_yield_events : List FacadeEvent :=
  [.assertLooksValid, .forwardToPolicy]

/-- scheduler.c lines 196-206: the statements of scheduler_emit (the strcpy
and strcat act on the local buffer, not on the context). -/
def scheduler_emit_events : List FacadeEvent :=
  [.assertLooksValid, .forwardToPolicy]

/-- scheduler.c lines 225-230: the statements of scheduler_n_executed. -/
def scheduler_n_executed_events : List FacadeEvent :=
  [.assertLooksValid, .counterRead]

/-! ## Sequences of facade calls -/

/-- One public facade call after initialization (the operations the claims
quantify over), with the caller-supplied arguments that affect the
context. -/
inductive FacadeOp where
  | registerThread (tid : Nat) (type : thread_type_t)
  | registerLcbn
  | nextLcbnType
  | threadYield (point : schedule_point_t)
  | emit
  | lcbnsRemaining
  | hasDiverged
  | nExecuted
  | getMode
deriving DecidableEq, Repr

/-- Run one facade call, keeping only its state effect. -/
def applyOp : FacadeOp → SchedulerState → Option SchedulerState
  | .registerThread tid type, s => scheduler_register_thread tid type s
  | .registerLcbn, s => scheduler_register_lcbn s
  | .nextLcbnType, s => scheduler_next_lcbn_type s
  | .threadYield point, s => scheduler_thread_yield point s
  | .emit, s => (scheduler_emit s).map (fun r => r.2)
  | .lcbnsRemaining, s => scheduler_lcbns_remaining s
  | .hasDiverged, s => scheduler_schedule_has_diverged s
  | .nExecuted, s => (scheduler_n_executed s).map (fun r => r.2)
  | .getMode, s => (scheduler_get_scheduler_mode s).map (fun r => r.2)

/-- Run a sequence of facade calls; `none` as soon as one hits its fatal
assert. -/
def run : List FacadeOp → SchedulerState → Option SchedulerState
  | [], s => some s
  | op :: ops, s => (applyOp op s).bind (run ops)

/-! ## Concrete states used to instantiate the quantified theorems -/

/-- A scheduler context that passes scheduler__looks_valid: the flag set and
the magic in place (the state scheduler_init's body evidently intends to
produce), mode REPLAY, schedule file "run.sched". -/
def validState : SchedulerState :=
  { scheduler_initialized := true
    magic := SCHEDULER_MAGIC
    type := .CBTREE
    mode := .REPLAY
    schedule_file := strncpy ("run.sched".data) 1024
    args := 0
    n_executed := 0
    tidToType := []
    mutex_depth := 0
    impl := some .cbTreeInit }

/-- validState after registering thread 7 as LOOPER. -/
def validStateReg : SchedulerState :=
  { validState with tidToType := [(7, thread_type_t.LOOPER)] }

/-- A schedule-file path of exactly 1024 bytes (no NUL among them). -/
def longPath : List Char := List.replicate 1024 'a'

/-- The context scheduler_init(CBTREE, RECORD, longPath, 0) builds from the
process-start state. -/
def longPathState : SchedulerState :=
  { initialState with
      magic := SCHEDULER_MAGIC
      type := .CBTREE
      mode := .RECORD
      schedule_file := strncpy longPath 1024
      impl := some PolicyCtor.cbTreeInit }

/-- "run.sched" as stored: nine path bytes then NUL padding. -/
def runSchedPath : List Char := "run.sched".data

/-! ## Helper lemmas -/

/-- Looking up the key just inserted finds the inserted role. -/
theorem map_lookup_insert_same (m : List (Nat × thread_type_t)) (k : Nat)
    (v : thread_type_t) : map_lookup (map_insert m k v) k = some v := by
  simp [map_lookup, map_insert, List.find?]

/-- Inserting a different key leaves a lookup unchanged. -/
theorem map_lookup_insert_other (m : List (Nat × thread_type_t))
    (k1 k2 : Nat) (v : thread_type_t) (h : k1 ≠ k2) :
    map_lookup (map_insert m k1 v) k2 = map_lookup m k2 := by
  have hb : (k1 == k2) = false := by simp [h]
  simp [map_lookup, map_insert, List.find?, hb]

/-- Every facade call that does not hit its assert leaves every context field
except the registry exactly as it was. -/
theorem applyOp_preserves (op : FacadeOp) (s s2 : SchedulerState)
    (h : applyOp op s = some s2) :
    s2.scheduler_initialized = s.scheduler_initialized ∧ s2.magic = s.magic ∧
    s2.type = s.type ∧ s2.mode = s.mode ∧
    s2.schedule_file = s.schedule_file ∧ s2.args = s.args ∧
    s2.n_executed = s.n_executed ∧ s2.mutex_depth = s.mutex_depth ∧
    s2.impl = s.impl := by
  cases op <;>
    simp only [applyOp, scheduler_register_thread, scheduler_register_lcbn,
      scheduler_next_lcbn_type, scheduler_thread_yield, scheduler_emit,
      scheduler_lcbns_remaining, scheduler_schedule_has_diverged,
      scheduler_n_executed, scheduler_get_scheduler_mode] at h <;>
    split at h <;> simp_all
  subst h
  simp

/-- A facade call other than registerThread also leaves the registry
untouched. -/
theorem applyOp_registry_preserved (op : FacadeOp) (s s2 : SchedulerState)
    (h : applyOp op s = some s2)
    (hop : ∀ tid ty, op ≠ FacadeOp.registerThread tid ty) :
    s2.tidToType = s.tidToType := by
  cases op with
  | registerThread tid ty => exact absurd rfl (hop tid ty)
  | _ =>
    simp only [applyOp, scheduler_register_lcbn, scheduler_next_lcbn_type,
      scheduler_thread_yield, scheduler_emit, scheduler_lcbns_remaining,
      scheduler_schedule_has_diverged, scheduler_n_executed,
      scheduler_get_scheduler_mode] at h <;>
    split at h <;> simp_all

/-- A facade call that is not a registerThread for `tid` preserves what a
role lookup for `tid` sees. -/
theorem applyOp_lookup_preserved (op : FacadeOp) (tid : Nat)
    (s s2 : SchedulerState) (h : applyOp op s = some s2)
    (hop : ∀ ty, op ≠ FacadeOp.registerThread tid ty) :
    map_lookup s2.tidToType tid = map_lookup s.tidToType tid := by
  cases op with
  | registerThread tid2 ty =>
    have htid : tid2 ≠ tid := by
      intro e
      exact hop ty (by rw [e])
    simp only [applyOp, scheduler_register_thread] at h
    split at h
    · cases h
      exact map_lookup_insert_other s.tidToType tid2 tid ty htid
    · cases h
  | _ =>
    have hreg : s2.tidToType = s.tidToType := by
      apply applyOp_registry_preserved _ _ _ h
      intro tid3 ty3 e
      cases e
    rw [hreg]

/-- Over a whole run, a role lookup is preserved as long as the run contains
no registerThread for that tid. -/
theorem run_lookup_preserved (ops : List FacadeOp) (tid : Nat) :
    ∀ s s2 : SchedulerState, run ops s = some s2 →
    (∀ ty, FacadeOp.registerThread tid ty ∉ ops) →
    map_lookup s2.tidToType tid = map_lookup s.tidToType tid := by
  induction ops with
  | nil =>
    intro s s2 h _
    simp only [run, Option.some.injEq] at h
    rw [h]
  | cons op ops ih =>
    intro s s2 h hno
    simp only [run, Option.bind_eq_some] at h
    obtain ⟨s1, h1, h2⟩ := h
    have hstep : map_lookup s1.tidToType tid = map_lookup s.tidToType tid := by
      apply applyOp_lookup_preserved op tid s s1 h1
      intro ty e
      exact hno ty (by rw [e]; exact List.mem_cons_self _ _)
    have hrest : map_lookup s2.tidToType tid = map_lookup s1.tidToType tid := by
      apply ih s1 s2 h2
      intro ty hmem
      exact hno ty (List.mem_cons_of_mem op hmem)
    rw [hrest, hstep]

/-- Over a whole run, every context field except the registry is
preserved. -/
theorem run_preserves (ops : List FacadeOp) :
    ∀ s s2 : SchedulerState, run ops s = some s2 →
    s2.n_executed = s.n_executed ∧ s2.mode = s.mode ∧
    s2.schedule_file = s.schedule_file := by
  induction ops with
  | nil =>
    intro s s2 h
    simp only [run, Option.some.injEq] at h
    rw [h]
    exact ⟨rfl, rfl, rfl⟩
  | cons op ops ih =>
    intro s s2 h
    simp only [run, Option.bind_eq_some] at h
    obtain ⟨s1, h1, h2⟩ := h
    obtain ⟨_, _, _, _, hf, _, hn, _, _⟩ := applyOp_preserves op s s1 h1
    obtain ⟨hn2, hm2, hf2⟩ := ih s1 s2 h2
    constructor
    · rw [hn2, hn]
    constructor
    · rw [hm2]
      exact (applyOp_preserves op s s1 h1).2.2.2.1
    · rw [hf2, hf]

/-! ## Claims -/

/-- C1: the claim says that after a successful initialize, every subsequent
public facade operation passes the initialization-state validation
(scheduler__looks_valid) and the fatal not-initialized path is unreachable.
The code refutes this: scheduler_init's body never stores 1 into
scheduler_initialized, so on the very state scheduler_init returns,
scheduler__looks_valid is false and every facade operation (here
scheduler_n_executed) takes its fatal assert path. -/
theorem C1_validation_fails_after_init :
    (scheduler_init .CBTREE .RECORD runSchedPath 0 initialState).map
        scheduler__looks_valid = some false ∧
    (scheduler_init .CBTREE .RECORD runSchedPath 0 initialState).bind
        scheduler_n_executed = none := by
  exact ⟨rfl, rfl⟩

/-- C2: the claim says each of the three policy kinds, compiled in, reaches
exactly its own policy-specific constructor, and only unrecognized kinds hit
the fatal default. The code refutes it for the two fuzzer kinds: in the
scheduler_init switch, `SCHEDULER_TYPE_FUZZER_TIMER:` and
`SCHEDULER_TYPE_FUZZER_THREAD_ORDER:` lack the `case` keyword — they are
plain goto labels — so dispatch on those kinds falls to the fatal
`default:` branch instead of the fuzzer constructors. Only CBTREE reaches
its constructor. -/
theorem C2_fuzzer_kinds_hit_fatal_default :
    (scheduler_init .CBTREE .RECORD runSchedPath 0 initialState).map
        (fun s => s.impl) = some (some .cbTreeInit) ∧
    scheduler_init .FUZZER_TIMER .RECORD runSchedPath 0 initialState
        = none ∧
    scheduler_init .FUZZER_THREAD_ORDER .RECORD runSchedPath 0 initialState
        = none := by
  exact ⟨rfl, rfl, rfl⟩

/-- C4: the claim says a second call to initialize hits the fatal
process-abort assertion instead of reconstructing the context. The code
refutes it: because scheduler_init never sets scheduler_initialized, the
second call's `assert(!initialized)` still sees 0 and the body runs again,
rebuilding the whole context (here with a different mode and path). -/
theorem C4_second_init_passes_assert :
    ((scheduler_init .CBTREE .RECORD runSchedPath 0 initialState).bind
        (scheduler_init .CBTREE .REPLAY longPath 0)).map
        (fun s => s.mode) = some .REPLAY := by
  exact rfl

/-- C5: the claim says every valid value of each of the four enumerations
maps to a stable distinct display name with no fatal assertion. The code
refutes it: all four to-string functions bounds-check against
SCHEDULER_MODE_MIN/SCHEDULER_MODE_MAX (the two-value mode range), so the
third policy kind FUZZER_THREAD_ORDER (value 2) and the four schedule
points with values 2..5 fail the assert even though they are valid values;
only the modes, the thread roles, the first two policy kinds and the first
two schedule points get their names. -/
theorem C5_to_string_mode_bounds_misused :
    scheduler_mode_to_string .RECORD = some "RECORD" ∧
    scheduler_mode_to_string .REPLAY = some "REPLAY" ∧
    thread_type_to_string .LOOPER = some "LOOPER" ∧
    thread_type_to_string .THREADPOOL = some "THREADPOOL" ∧
    scheduler_type_to_string .CBTREE = some "CBTREE" ∧
    scheduler_type_to_string .FUZZER_TIMER = some "FUZZER_TIMER" ∧
    scheduler_type_to_string .FUZZER_THREAD_ORDER = none ∧
    schedule_point_to_string .BEFORE_EXEC_CB = some "BEFORE_EXEC_CB" ∧
    schedule_point_to_string .AFTER_EXEC_CB = some "AFTER_EXEC_CB" ∧
    schedule_point_to_string .TP_BEFORE_GET_WORK = none ∧
    schedule_point_to_string .TP_AFTER_GET_WORK = none ∧
    schedule_point_to_string .TP_BEFORE_PUT_DONE = none ∧
    schedule_point_to_string .TP_AFTER_PUT_DONE = none := by
  decide

/-- C7: the claim says every mutating facade operation (registerThread,
registerCallback, yield, emitSchedule) acquires the facade's reentrant lock
around its forward-to-policy call, the executedCount read alone being
unsynchronized. The code refutes it: none of those four bodies contains a
scheduler__lock / reentrant_mutex_lock call at all — their statement traces
hold no lock acquisition (and, consistently, no release). -/
theorem C7_facade_ops_never_lock :
    FacadeEvent.lockAcquire ∉ scheduler_register_thread_events ∧
    FacadeEvent.lockAcquire ∉ scheduler_register_lcbn_events ∧
    FacadeEvent.lockAcquire ∉ scheduler_thread_yield_events ∧
    FacadeEvent.lockAcquire ∉ scheduler_emit_events ∧
    FacadeEvent.lockRelease ∉ scheduler_register_thread_events ∧
    FacadeEvent.lockRelease ∉ scheduler_register_lcbn_events ∧
    FacadeEvent.lockRelease ∉ scheduler_thread_yield_events ∧
    FacadeEvent.lockRelease ∉ scheduler_emit_events ∧
    FacadeEvent.lockAcquire ∉ scheduler_n_executed_events := by
  decide

/-- C3: for every context that passes the validation, scheduler_emit
produces exactly the stored schedule-file path with the fixed "-replay"
suffix appended when the mode is REPLAY and unmodified when the mode is
RECORD; the produced List Char of the result pair is the single output_file
buffer, i.e. simultaneously the argument handed to the policy's emit routine
and the facade's return value. -/
theorem C3_emit_output_path (s : SchedulerState)
    (h : scheduler__looks_valid s = true) :
    scheduler_emit s =
      some (cstr s.schedule_file ++
        (if s.mode = .REPLAY then ("-replay".data) else []), s) := by
  simp only [scheduler_emit, scheduler_emit_output_file, h, if_true]
  cases hm : s.mode <;> simp [hm]

/-- Witness for C3: a concrete REPLAY-mode context; emit returns the stored
path with the "-replay" suffix. -/
theorem C3_emit_output_path_witness :
    scheduler_emit validState =
      some (cstr validState.schedule_file ++ ("-replay".data),
        validState) := by
  have h := C3_emit_output_path validState rfl
  simpa using h

/-- C6: a thread registered with role ty is looked up as exactly ty after any
further facade calls that do not re-register that thread; a thread identity
never registered makes the role lookup take the fatal assert path (`none`),
never a silent default role. -/
theorem C6_role_lookup :
    (∀ (s s1 s2 : SchedulerState) (tid : Nat) (ty : thread_type_t)
        (ops : List FacadeOp),
      scheduler_register_thread tid ty s = some s1 →
      run ops s1 = some s2 →
      (∀ t2, FacadeOp.registerThread tid t2 ∉ ops) →
      scheduler__get_thread_type tid s2 = some ty) ∧
    (∀ (s : SchedulerState) (tid : Nat),
      map_lookup s.tidToType tid = none →
      scheduler__get_thread_type tid s = none) := by
  constructor
  · intro s s1 s2 tid ty ops hreg hrun hno
    have h1 : map_lookup s1.tidToType tid = some ty := by
      simp only [scheduler_register_thread] at hreg
      split at hreg
      · cases hreg
        exact map_lookup_insert_same s.tidToType tid ty
      · cases hreg
    have h2 := run_lookup_preserved ops tid s1 s2 hrun hno
    simp only [scheduler__get_thread_type, h2, h1]
  · intro s tid h
    simp only [scheduler__get_thread_type, h]

/-- Witness for C6: after registering thread 7 as LOOPER and an intervening
emit, the lookup of 7 yields LOOPER; the unregistered thread 9 hits the
fatal path. -/
theorem C6_role_lookup_witness :
    scheduler__get_thread_type 7 validStateReg = some .LOOPER ∧
    scheduler__get_thread_type 9 validStateReg = none :=
  ⟨C6_role_lookup.1 validState validStateReg validStateReg 7 .LOOPER
      [.emit] rfl rfl (fun t2 => by simp),
   C6_role_lookup.2 validStateReg 9 rfl⟩

/-- C8: across every sequence of facade calls that completes without a fatal
assert, the executed-callback counter read by scheduler_n_executed never
decreases (no operation in scheduler.c writes it after initialization, so it
is in fact preserved). -/
theorem C8_counter_never_decreases (ops : List FacadeOp)
    (s s2 : SchedulerState) (h : run ops s = some s2) :
    s.n_executed ≤ s2.n_executed := by
  exact le_of_eq (run_preserves ops s s2 h).1.symm

/-- Witness for C8: a concrete three-call run; the counter does not
decrease. -/
theorem C8_counter_never_decreases_witness :
    validState.n_executed ≤ validStateReg.n_executed :=
  C8_counter_never_decreases
    [.registerThread 7 .LOOPER, .emit, .nExecuted]
    validState validStateReg rfl

/-- C9: every facade call that passes its assert leaves every context field
other than the executed-callback counter unchanged, and the registry is
changed only by registerThread (in particular emit leaves the stored
schedule-file buffer untouched — the suffix goes onto a local copy);
scheduler_init stores exactly the supplied mode, and
scheduler_get_scheduler_mode returns exactly the stored mode. -/
theorem C9_frame_and_mode :
    (∀ (op : FacadeOp) (s s2 : SchedulerState), applyOp op s = some s2 →
      s2.magic = s.magic ∧ s2.type = s.type ∧ s2.mode = s.mode ∧
      s2.schedule_file = s.schedule_file ∧ s2.args = s.args ∧
      s2.impl = s.impl ∧ s2.mutex_depth = s.mutex_depth ∧
      s2.scheduler_initialized = s.scheduler_initialized ∧
      ((∀ (tid : Nat) (ty : thread_type_t),
          op ≠ FacadeOp.registerThread tid ty) →
        s2.tidToType = s.tidToType)) ∧
    (∀ (type : scheduler_type_t) (mode : scheduler_mode_t) (f : List Char)
        (args : Nat) (s0 s1 : SchedulerState),
      scheduler_init type mode f args s0 = some s1 → s1.mode = mode) ∧
    (∀ (s s2 : SchedulerState) (m : scheduler_mode_t),
      scheduler_get_scheduler_mode s = some (m, s2) → m = s.mode) := by
  refine ⟨?_, ?_, ?_⟩
  · intro op s s2 h
    obtain ⟨hi, hmg, hty, hmo, hf, ha, _, hmx, him⟩ :=
      applyOp_preserves op s s2 h
    exact ⟨hmg, hty, hmo, hf, ha, him, hmx, hi,
      fun hop => applyOp_registry_preserved op s s2 h hop⟩
  · intro type mode f args s0 s1 h
    simp only [scheduler_init] at h
    split at h
    · cases h
    · split at h
      · cases h
      · cases h
        rfl
  · intro s s2 m h
    simp only [scheduler_get_scheduler_mode] at h
    split at h
    · cases h
      rfl
    · cases h

/-- Witness for C9: a concrete registerThread call changes nothing but the
registry, and a concrete init stores the supplied RECORD mode. -/
theorem C9_frame_and_mode_witness :
    validStateReg.mode = validState.mode ∧
    validStateReg.schedule_file = validState.schedule_file ∧
    longPathState.mode = scheduler_mode_t.RECORD :=
  ⟨(C9_frame_and_mode.1 (.registerThread 7 .LOOPER) validState
      validStateReg rfl).2.2.1,
   (C9_frame_and_mode.1 (.registerThread 7 .LOOPER) validState
      validStateReg rfl).2.2.2.1,
   C9_frame_and_mode.2.1 .CBTREE .RECORD longPath 0 initialState
      longPathState rfl⟩

/-- C10: whenever scheduler_init succeeds, the stored buffer holds at most
the first 1024 bytes of the supplied path, NUL-padded only when the path is
shorter; a path of 1024 bytes or more is silently truncated to its first
1024 bytes (init still succeeds) and — carrying no NUL of its own — is
stored without any terminating NUL byte. -/
theorem C10_path_truncation (type : scheduler_type_t)
    (mode : scheduler_mode_t) (f : List Char) (args : Nat)
    (s0 s1 : SchedulerState)
    (h : scheduler_init type mode f args s0 = some s1) :
    s1.schedule_file =
      f.take 1024 ++ List.replicate (1024 - f.length) (Char.ofNat 0) ∧
    (1024 ≤ f.length →
      s1.schedule_file = f.take 1024 ∧
      (Char.ofNat 0 ∉ f → Char.ofNat 0 ∉ s1.schedule_file)) := by
  have hsf : s1.schedule_file = strncpy f 1024 := by
    simp only [scheduler_init] at h
    split at h
    · cases h
    · split at h
      · cases h
      · cases h
        rfl
  constructor
  · rw [hsf]
    rfl
  · intro hlen
    have hz : 1024 - f.length = 0 := by omega
    have heq : s1.schedule_file = f.take 1024 := by
      rw [hsf]
      simp [strncpy, hz]
    refine ⟨heq, fun hnul hmem => ?_⟩
    rw [heq] at hmem
    exact hnul (List.take_subset _ _ hmem)

/-- Witness for C10: a 1024-byte path of letters is accepted, stored whole
and unterminated — the stored buffer contains no NUL byte at all. -/
theorem C10_path_truncation_witness :
    scheduler_init .CBTREE .RECORD longPath 0 initialState
        = some longPathState ∧
    longPathState.schedule_file = longPath.take 1024 ∧
    Char.ofNat 0 ∉ longPathState.schedule_file := by
  have h := C10_path_truncation .CBTREE .RECORD longPath 0 initialState
    longPathState rfl
  have hlen : (1024 : Nat) ≤ longPath.length := by
    simp only [longPath, List.length_replicate]
    exact le_refl 1024
  have hnul : Char.ofNat 0 ∉ longPath := by
    simp only [longPath, List.mem_replicate, not_and]
    intro _
    decide
  exact ⟨rfl, (h.2 hlen).1, (h.2 hlen).2 hnul⟩

end NodeFz
